import Mathlib

/-!
Shallow embedding of `src/projects/lesson-4/runtime/src/kitties.rs`.

The module is a Substrate-style kitty registry.  Storage items (the
`decl_storage!` block) become fields of a `State` structure; storage maps
whose values are not wrapped in `Option` return the default value `0` for
absent keys (runtime storage semantics), and `remove` resets an entry to
that default.  `T::KittyIndex` and `T::AccountId` are modelled as `Nat`;
the index type's `max_value()` is passed explicitly as a parameter `max`
wherever the code consults `T::KittyIndex::max_value()` or performs
checked arithmetic on indices.

Randomness (`Self::random_value`) is an external collaborator: the 16
random bytes are taken as an explicit argument of `create_kitty` and
`do_breed`.

Two places in the source do not typecheck as written and are embedded by
their minimal compiling completion:
* in `transfer_kitty` the results of `checked_sub(1).ok_or(..)` and
  `checked_add(1).ok_or(..)` are bound without the `?` operator yet used
  later as plain indices; they are embedded as propagating their error
  (both checks happen before any storage write, so this is the only
  completion under which the subsequent code is typeable);
* the parameter named `from` is a Lean keyword and is called `sender`
  here.
Each dispatchable either returns an error together with the unmodified
state or performs its storage writes, mirroring the check-then-write
order of the source line by line.
-/

namespace Kitties

/-- Account identifiers (`T::AccountId`), modelled as naturals. -/
abbrev AccountId := Nat

/-- Kitty indices (`T::KittyIndex`), modelled as naturals. -/
abbrev KittyIndex := Nat

/-- `pub struct Kitty(pub [u8; 16])`: the 16 DNA bytes, as a list of naturals. -/
structure Kitty where
  dna : List Nat
deriving DecidableEq

/-- The `decl_storage!` block of the module. -/
structure State where
  /-- `Kitties`: map `T::KittyIndex => Option<Kitty>`. -/
  kitties : KittyIndex → Option Kitty
  /-- `KittiesCount`: total number of kitties, i.e. the next kitty index. -/
  kitties_count : KittyIndex
  /-- `KittyOwner`: map `T::KittyIndex => Option<T::AccountId>`. -/
  kitty_owner : KittyIndex → Option AccountId
  /-- `OwnedKitties`: map `(T::AccountId, T::KittyIndex) => T::KittyIndex`
  (default value `0` for absent keys). -/
  owned_kitties : AccountId × KittyIndex → KittyIndex
  /-- `OwnedKittiesCount`: map `T::AccountId => T::KittyIndex` (default `0`). -/
  owned_kitties_count : AccountId → KittyIndex
  /-- `OwnedKittiesIndex`: map `T::KittyIndex => T::KittyIndex` (default `0`). -/
  owned_kitties_index : KittyIndex → KittyIndex

/-- Genesis storage: every map empty (reads return `None` resp. `0`),
`KittiesCount` zero. -/
def initState : State where
  kitties := fun _ => none
  kitties_count := 0
  kitty_owner := fun _ => none
  owned_kitties := fun _ => 0
  owned_kitties_count := fun _ => 0
  owned_kitties_index := fun _ => 0

/-- `fn combine_dna(dna1: u8, dna2: u8, selector: u8) -> u8`.  The body of
the source is the stub `return dna1;` (the combination logic is left as an
exercise); the doc comment above it states the intended test vector
`dna1 = 0b11110000, dna2 = 0b11001100, selector = 0b10101010` with expected
result `0b11100100`. -/
def combine_dna (dna1 dna2 selector : Nat) : Nat :=
  dna1

/-- `fn next_kitty_id()`: reads `KittiesCount` and fails with
"Kitties count overflow" when it equals `T::KittyIndex::max_value()`. -/
def next_kitty_id (max : Nat) (s : State) : Except String KittyIndex :=
  let kitty_id := s.kitties_count
  if kitty_id = max then Except.error "Kitties count overflow"
  else Except.ok kitty_id

/-- `fn insert_kitty(owner, kitty_id, kitty)`: stores the kitty, bumps
`KittiesCount` to `kitty_id + 1`, and records the ownership information
(`OwnedKitties`, `OwnedKittiesCount`, `OwnedKittiesIndex`, `KittyOwner`),
in the source's write order. -/
def insert_kitty (s : State) (owner : AccountId) (kitty_id : KittyIndex)
    (kitty : Kitty) : State :=
  let user_kitties_id := s.owned_kitties_count owner
  { s with
    kitties := fun k => if k = kitty_id then some kitty else s.kitties k,
    kitties_count := kitty_id + 1,
    owned_kitties := fun p =>
      if p = (owner, user_kitties_id) then kitty_id else s.owned_kitties p,
    owned_kitties_count := fun a =>
      if a = owner then user_kitties_id + 1 else s.owned_kitties_count a,
    owned_kitties_index := fun k =>
      if k = kitty_id then user_kitties_id else s.owned_kitties_index k,
    kitty_owner := fun k =>
      if k = kitty_id then some owner else s.kitty_owner k }

/-- `fn create_kitty(owner)`: allocates an id via `next_kitty_id` (failing
leaves the state untouched), builds the kitty from the random DNA `dna`
(the external `Self::random_value(&owner)`), and inserts it. -/
def create_kitty (max : Nat) (s : State) (owner : AccountId)
    (dna : List Nat) : Option String × State :=
  match next_kitty_id max s with
  | Except.error e => (some e, s)
  | Except.ok new_kitty_id =>
      (none, insert_kitty s owner new_kitty_id (Kitty.mk dna))

/-- `fn do_breed(sender, kitty_id_1, kitty_id_2)`: requires both parents to
exist (errors "Invalid kitty_id_1" / "Invalid kitty_id_2", checked in that
order) and to be distinct ("Needs different parent"), allocates an id, and
inserts the child whose DNA combines the parents' bytes under the random
`selector` (the source's `for i in 0..16` loop over `combine_dna`). -/
def do_breed (max : Nat) (s : State) (sender : AccountId)
    (kitty_id_1 kitty_id_2 : KittyIndex) (selector : List Nat) :
    Option String × State :=
  match s.kitties kitty_id_1, s.kitties kitty_id_2 with
  | none, _ => (some "Invalid kitty_id_1", s)
  | some _, none => (some "Invalid kitty_id_2", s)
  | some kitty1, some kitty2 =>
    if kitty_id_1 = kitty_id_2 then (some "Needs different parent", s)
    else
      match next_kitty_id max s with
      | Except.error e => (some e, s)
      | Except.ok kitty_id =>
          let new_dna := List.zipWith (fun p sel => combine_dna p.1 p.2 sel)
            (kitty1.dna.zip kitty2.dna) selector
          (none, insert_kitty s sender kitty_id (Kitty.mk new_dna))

/-- `fn transfer_kitty(from, to, kitty_id)` (the parameters `from` and `to` are named
`sender` and `toAcc` here, both being Lean keywords).  Checks the owner ("Kitty Owner Invalid.",
"from account is not the owner."), performs the checked count arithmetic —
note the source computes BOTH new counts from the `from` account's count —
then does the swap-with-last removal, ownership updates, and count writes
in the source's order.  `OwnedKitties::remove` resets the entry to the
default `0`. -/
def transfer_kitty (max : Nat) (s : State) (sender toAcc : AccountId)
    (kitty_id : KittyIndex) : Option String × State :=
  match s.kitty_owner kitty_id with
  | none => (some "Kitty Owner Invalid.", s)
  | some owner =>
    if owner = sender then
      let from_account_owned_kitties := s.owned_kitties_count sender
      let to_account_owned_kitties := s.owned_kitties_count toAcc
      if from_account_owned_kitties = 0 then
        (some "transfer error of \x27from\x27 account.", s)
      else if from_account_owned_kitties = max then
        (some "transfer error of \x27to\x27 account.", s)
      else
        let new_from_account_owned_kitties := from_account_owned_kitties - 1
        let new_to_account_owned_kitties := from_account_owned_kitties + 1
        let kitty_index := s.owned_kitties_index kitty_id
        let s1 :=
          if kitty_index ≠ new_from_account_owned_kitties then
            let last_kitty_id :=
              s.owned_kitties (sender, new_from_account_owned_kitties)
            { s with
              owned_kitties := fun p =>
                if p = (sender, kitty_index) then last_kitty_id
                else s.owned_kitties p,
              owned_kitties_index := fun k =>
                if k = last_kitty_id then kitty_index
                else s.owned_kitties_index k }
          else s
        let s2 :=
          { s1 with
            kitty_owner := fun k =>
              if k = kitty_id then some toAcc else s1.kitty_owner k,
            owned_kitties_index := fun k =>
              if k = kitty_id then to_account_owned_kitties
              else s1.owned_kitties_index k }
        let s3 :=
          { s2 with
            owned_kitties := fun p =>
              if p = (sender, new_from_account_owned_kitties) then 0
              else s2.owned_kitties p }
        let s4 :=
          { s3 with
            owned_kitties := fun p =>
              if p = (toAcc, to_account_owned_kitties) then kitty_id
              else s3.owned_kitties p }
        let s5 :=
          { s4 with
            owned_kitties_count := fun a =>
              if a = sender then new_from_account_owned_kitties
              else s4.owned_kitties_count a }
        let s6 :=
          { s5 with
            owned_kitties_count := fun a =>
              if a = toAcc then new_to_account_owned_kitties
              else s5.owned_kitties_count a }
        (none, s6)
    else (some "from account is not the owner.", s)

/-- One successful dispatchable call (`create`, `breed`, or
`transfer_kitty`); failing calls leave the state unchanged and are
irrelevant for reachability. -/
inductive Step (max : Nat) : State → State → Prop
  | create (s : State) (owner : AccountId) (dna : List Nat) :
      (create_kitty max s owner dna).1 = none →
      Step max s (create_kitty max s owner dna).2
  | breed (s : State) (sender : AccountId) (id1 id2 : KittyIndex)
      (selector : List Nat) :
      (do_breed max s sender id1 id2 selector).1 = none →
      Step max s (do_breed max s sender id1 id2 selector).2
  | transfer (s : State) (sender toAcc : AccountId) (id : KittyIndex) :
      (transfer_kitty max s sender toAcc id).1 = none →
      Step max s (transfer_kitty max s sender toAcc id).2

/-- States reachable from genesis by dispatchable calls. -/
def Reachable (max : Nat) (s : State) : Prop :=
  Relation.ReflTransGen (Step max) initState s

/-- The ownership-index consistency invariant: every slot below an owner's
count points back to itself through `OwnedKittiesIndex`, and an id's
recorded owner is exactly the account under whose dense sequence it
appears. -/
def OwnershipIndexConsistent (s : State) : Prop :=
  (∀ o slot, slot < s.owned_kitties_count o →
    s.owned_kitties_index (s.owned_kitties (o, slot)) = slot) ∧
  (∀ id o, s.kitty_owner id = some o ↔
    ∃ slot, slot < s.owned_kitties_count o ∧ s.owned_kitties (o, slot) = id)

/-- All-zero DNA used for concrete traces. -/
def zeroDna : List Nat := List.replicate 16 0

/-- State after `create` by account `0` at genesis: kitty `0` at slot `0`
of account `0`. -/
def traceS1 : State := (create_kitty 100 initState 0 zeroDna).2

/-- State after a second `create` by account `0`: kitties `0, 1` at slots
`0, 1` of account `0`. -/
def traceS2 : State := (create_kitty 100 traceS1 0 zeroDna).2

/-- State after `transfer_kitty(0, 1, 0)` from `traceS2`: the transfer of
kitty `0` from account `0` (owning two kitties) to account `1` (owning
none). -/
def badState : State := (transfer_kitty 100 traceS2 0 1 0).2

/-- C1: with the conformance vector from the source's own doc comment
(`dna1 = 0b11110000`, `dna2 = 0b11001100`, `selector = 0b10101010`), the
stubbed `combine_dna` returns `dna1 = 0b11110000` and not the documented
expected result `0b11100100`: the bit-selection contract fails. -/
theorem combine_dna_stub_fails_conformance_vector :
    combine_dna 0b11110000 0b11001100 0b10101010 = 0b11110000 ∧
    combine_dna 0b11110000 0b11001100 0b10101010 ≠ 0b11100100 := by
  exact ⟨rfl, by decide⟩

/-- C2: concrete evaluation of the destination-count defect.  In `traceS2`
account `0` owns two kitties and account `1` owns none; the transfer of
kitty `0` from `0` to `1` succeeds, yet afterwards account `1`'s count is
`3` (the source account's prior count plus one) instead of `1` (its own
prior count plus one). -/
theorem transfer_dest_count_computed_from_source_count :
    (transfer_kitty 100 traceS2 0 1 0).1 = none ∧
    traceS2.owned_kitties_count 0 = 2 ∧
    traceS2.owned_kitties_count 1 = 0 ∧
    badState.owned_kitties_count 1 = 3 := by decide

/-- C3: the state `badState`, reachable from genesis by two `create` calls
of account `0` followed by `transfer_kitty(0, 1, 0)`, violates the
ownership-index consistency invariant: slot `1` is below account `1`'s
count `3`, yet `slot_of(sequence(1)[1]) = 0 ≠ 1`. -/
theorem reachable_state_violates_index_consistency :
    Reachable 100 badState ∧ ¬ OwnershipIndexConsistent badState := by
  constructor
  · have h1 : Step 100 initState traceS1 :=
      Step.create initState 0 zeroDna (by decide)
    have h2 : Step 100 traceS1 traceS2 :=
      Step.create traceS1 0 zeroDna (by decide)
    have h3 : Step 100 traceS2 badState :=
      Step.transfer traceS2 0 1 0 (by decide)
    exact Relation.ReflTransGen.tail
      (Relation.ReflTransGen.tail (Relation.ReflTransGen.single h1) h2) h3
  · intro h
    exact absurd (h.1 1 1 (by decide)) (by decide)

/-- C4: concrete evaluation of the self-transfer defect.  In `traceS1`
account `0` owns exactly kitty `0`; the self-transfer
`transfer_kitty(0, 0, 0)` succeeds but raises account `0`'s count from
`1` to `2` instead of leaving it unchanged. -/
theorem self_transfer_changes_owned_count :
    (transfer_kitty 100 traceS1 0 0 0).1 = none ∧
    traceS1.owned_kitties_count 0 = 1 ∧
    (transfer_kitty 100 traceS1 0 0 0).2.owned_kitties_count 0 = 2 := by decide

/-- C9: identifier allocation fails with "Kitties count overflow" exactly
when `KittiesCount` equals the index type's maximum value, and for every
smaller counter it succeeds returning the current counter (so the counter
is never wrapped to `0`). -/
theorem next_kitty_id_overflow_boundary (max : Nat) (s : State) :
    (next_kitty_id max s = Except.error "Kitties count overflow" ↔
      s.kitties_count = max) ∧
    (s.kitties_count < max → next_kitty_id max s = Except.ok s.kitties_count) := by
  unfold next_kitty_id
  constructor
  · by_cases hc : s.kitties_count = max <;> simp [hc]
  · intro hlt
    simp [Nat.ne_of_lt hlt]

/-- Witness for C9: at genesis with `max = 0` the allocation fails with
the overflow error, and with `max = 5` it succeeds returning `0`. -/
theorem next_kitty_id_overflow_boundary_witness :
    next_kitty_id 0 initState = Except.error "Kitties count overflow" ∧
    next_kitty_id 5 initState = Except.ok 0 :=
  ⟨(next_kitty_id_overflow_boundary 0 initState).1.mpr rfl,
   (next_kitty_id_overflow_boundary 5 initState).2 (by decide)⟩

/-- C8: `do_breed` fails with "Invalid kitty_id_1" when the first parent
has no record, with "Invalid kitty_id_2" when the first exists but the
second does not, and with "Needs different parent" when both exist but the
ids coincide; in each failure the returned state is the input state. -/
theorem do_breed_precondition_errors (max : Nat) (s : State) (sender : AccountId)
    (id1 id2 : KittyIndex) (selector : List Nat) :
    (s.kitties id1 = none →
      do_breed max s sender id1 id2 selector = (some "Invalid kitty_id_1", s)) ∧
    ((s.kitties id1).isSome → s.kitties id2 = none →
      do_breed max s sender id1 id2 selector = (some "Invalid kitty_id_2", s)) ∧
    ((s.kitties id1).isSome → (s.kitties id2).isSome → id1 = id2 →
      do_breed max s sender id1 id2 selector = (some "Needs different parent", s)) := by
  refine ⟨fun h1 => ?_, fun h1 h2 => ?_, fun h1 h2 h3 => ?_⟩ <;>
    cases hk1 : s.kitties id1 <;> cases hk2 : s.kitties id2 <;>
    simp_all [do_breed]

/-- Witness for C8: in `traceS1` kitty `0` exists, so breeding it with
itself fails with "Needs different parent" and leaves the state as it
was. -/
theorem do_breed_precondition_errors_witness :
    (traceS1.kitties 0).isSome = true ∧
    do_breed 100 traceS1 7 0 0 zeroDna = (some "Needs different parent", traceS1) :=
  ⟨by decide,
   (do_breed_precondition_errors 100 traceS1 7 0 0 zeroDna).2.2
     (by decide) (by decide) rfl⟩

/-- C6: a successful `create_kitty` or `do_breed` bumps `KittiesCount` by
exactly one and stores the new kitty under the prior counter value, while
a failing one returns the input state (counter untouched). -/
theorem create_breed_counter_behavior (max : Nat) (s : State)
    (owner sender : AccountId) (dna selector : List Nat)
    (id1 id2 : KittyIndex) :
    ((create_kitty max s owner dna).1 = none →
      (create_kitty max s owner dna).2.kitties_count = s.kitties_count + 1 ∧
      (create_kitty max s owner dna).2.kitties s.kitties_count =
        some (Kitty.mk dna)) ∧
    ((create_kitty max s owner dna).1 ≠ none →
      (create_kitty max s owner dna).2 = s) ∧
    ((do_breed max s sender id1 id2 selector).1 = none →
      (do_breed max s sender id1 id2 selector).2.kitties_count =
        s.kitties_count + 1 ∧
      ((do_breed max s sender id1 id2 selector).2.kitties
        s.kitties_count).isSome) ∧
    ((do_breed max s sender id1 id2 selector).1 ≠ none →
      (do_breed max s sender id1 id2 selector).2 = s) := by
  refine ⟨fun h => ?_, fun h => ?_, fun h => ?_, fun h => ?_⟩
  · by_cases hmax : s.kitties_count = max
    · simp [create_kitty, next_kitty_id, hmax] at h
    · simp [create_kitty, next_kitty_id, hmax, insert_kitty]
  · by_cases hmax : s.kitties_count = max
    · simp [create_kitty, next_kitty_id, hmax]
    · simp [create_kitty, next_kitty_id, hmax] at h
  · cases hk1 : s.kitties id1 <;> cases hk2 : s.kitties id2 <;>
      by_cases hid : id1 = id2 <;>
      by_cases hmax : s.kitties_count = max <;>
      simp_all [do_breed, next_kitty_id, insert_kitty]
  · cases hk1 : s.kitties id1 <;> cases hk2 : s.kitties id2 <;>
      by_cases hid : id1 = id2 <;>
      by_cases hmax : s.kitties_count = max <;>
      simp_all [do_breed, next_kitty_id]

/-- Witness for C6: at genesis, `create_kitty` for account `0` succeeds,
bumps the counter from `0` to `1`, stores the kitty under id `0`; with
`max = 0` it fails and returns the state unchanged; and in `traceS2`
breeding kitties `0` and `1` succeeds and bumps the counter from `2` to
`3`. -/
theorem create_breed_counter_behavior_witness :
    ((create_kitty 100 initState 0 zeroDna).2.kitties_count = 1 ∧
      (create_kitty 100 initState 0 zeroDna).2.kitties 0 =
        some (Kitty.mk zeroDna)) ∧
    (create_kitty 0 initState 0 zeroDna).2 = initState ∧
    (do_breed 100 traceS2 0 0 1 zeroDna).2.kitties_count = 3 :=
  ⟨(create_breed_counter_behavior 100 initState 0 0 zeroDna zeroDna 0 1).1
     (by decide),
   (create_breed_counter_behavior 0 initState 0 0 zeroDna zeroDna 0 1).2.1
     (by decide),
   ((create_breed_counter_behavior 100 traceS2 0 0 zeroDna zeroDna 0 1).2.2.1
     (by decide)).1⟩

/-- C10: `transfer_kitty` never touches the `Kitties` map nor the global
`KittiesCount` counter, whether it succeeds or fails: only the four
ownership maps change. -/
theorem transfer_preserves_kitties_and_counter (max : Nat) (s : State)
    (sender toAcc : AccountId) (kitty_id : KittyIndex) :
    (transfer_kitty max s sender toAcc kitty_id).2.kitties = s.kitties ∧
    (transfer_kitty max s sender toAcc kitty_id).2.kitties_count =
      s.kitties_count := by
  unfold transfer_kitty
  cases hk : s.kitty_owner kitty_id with
  | none => exact ⟨rfl, rfl⟩
  | some owner =>
    dsimp only
    by_cases ho : owner = sender
    · rw [if_pos ho]
      by_cases h0 : s.owned_kitties_count sender = 0
      · rw [if_pos h0]; exact ⟨rfl, rfl⟩
      · rw [if_neg h0]
        by_cases hm : s.owned_kitties_count sender = max
        · rw [if_pos hm]; exact ⟨rfl, rfl⟩
        · rw [if_neg hm]
          constructor <;> split <;> rfl
    · rw [if_neg ho]; exact ⟨rfl, rfl⟩

/-- C5: whenever `transfer_kitty` returns an error, the returned state is
exactly the input state: no map entry, count, or index changed. -/
theorem transfer_error_leaves_state_unchanged (max : Nat) (s : State)
    (sender toAcc : AccountId) (kitty_id : KittyIndex) (e : String)
    (h : (transfer_kitty max s sender toAcc kitty_id).1 = some e) :
    (transfer_kitty max s sender toAcc kitty_id).2 = s := by
  unfold transfer_kitty at h ⊢
  revert h
  cases hk : s.kitty_owner kitty_id with
  | none => intro _; rfl
  | some owner =>
    dsimp only
    intro h
    by_cases ho : owner = sender
    · rw [if_pos ho] at h ⊢
      by_cases h0 : s.owned_kitties_count sender = 0
      · rw [if_pos h0]
      · rw [if_neg h0] at h ⊢
        by_cases hm : s.owned_kitties_count sender = max
        · rw [if_pos hm]
        · rw [if_neg hm] at h
          exact absurd h (by simp)
    · rw [if_neg ho]

/-- Witness for C5: transferring kitty `0` at genesis fails (no owner) and
the state is returned unchanged. -/
theorem transfer_error_leaves_state_unchanged_witness :
    (transfer_kitty 100 initState 0 1 0).1 = some "Kitty Owner Invalid." ∧
    (transfer_kitty 100 initState 0 1 0).2 = initState :=
  ⟨rfl,
   transfer_error_leaves_state_unchanged 100 initState 0 1 0
     "Kitty Owner Invalid." rfl⟩

/-- C7: swap-with-last removal performed by a successful transfer to a
different account.  Assume the source owner's index is consistent
(`hslots`), the kitty sits at slot `slot_of(kitty_id) < count(sender)`,
and the checked arithmetic cannot fail.  Then the transfer succeeds, the
source count drops by one, the final slot is cleared; if the kitty held
the last slot nothing else moves (all other source slots and all other
`slot_of` entries are untouched), and otherwise exactly the former last
element moves into the freed slot with only its `slot_of` entry updated,
every other element and `slot_of` entry (apart from the transferred
kitty's own) being unchanged. -/
theorem transfer_swap_with_last_removal (max : Nat) (s : State)
    (sender toAcc : AccountId) (kitty_id : KittyIndex)
    (hto : toAcc ≠ sender)
    (howner : s.kitty_owner kitty_id = some sender)
    (hpos : 0 < s.owned_kitties_count sender)
    (hmax : s.owned_kitties_count sender ≠ max)
    (hslots : ∀ j, j < s.owned_kitties_count sender →
      s.owned_kitties_index (s.owned_kitties (sender, j)) = j)
    (_hmem : s.owned_kitties (sender, s.owned_kitties_index kitty_id) = kitty_id)
    (_hlt : s.owned_kitties_index kitty_id < s.owned_kitties_count sender) :
    (transfer_kitty max s sender toAcc kitty_id).1 = none ∧
    (transfer_kitty max s sender toAcc kitty_id).2.owned_kitties_count sender =
      s.owned_kitties_count sender - 1 ∧
    (transfer_kitty max s sender toAcc kitty_id).2.owned_kitties
      (sender, s.owned_kitties_count sender - 1) = 0 ∧
    (s.owned_kitties_index kitty_id = s.owned_kitties_count sender - 1 →
      (∀ j, j ≠ s.owned_kitties_count sender - 1 →
        (transfer_kitty max s sender toAcc kitty_id).2.owned_kitties (sender, j) =
          s.owned_kitties (sender, j)) ∧
      (∀ x, x ≠ kitty_id →
        (transfer_kitty max s sender toAcc kitty_id).2.owned_kitties_index x =
          s.owned_kitties_index x)) ∧
    (s.owned_kitties_index kitty_id ≠ s.owned_kitties_count sender - 1 →
      (transfer_kitty max s sender toAcc kitty_id).2.owned_kitties
        (sender, s.owned_kitties_index kitty_id) =
        s.owned_kitties (sender, s.owned_kitties_count sender - 1) ∧
      (transfer_kitty max s sender toAcc kitty_id).2.owned_kitties_index
        (s.owned_kitties (sender, s.owned_kitties_count sender - 1)) =
        s.owned_kitties_index kitty_id ∧
      (∀ j, j ≠ s.owned_kitties_index kitty_id →
        j ≠ s.owned_kitties_count sender - 1 →
        (transfer_kitty max s sender toAcc kitty_id).2.owned_kitties (sender, j) =
          s.owned_kitties (sender, j)) ∧
      (∀ x, x ≠ kitty_id →
        x ≠ s.owned_kitties (sender, s.owned_kitties_count sender - 1) →
        (transfer_kitty max s sender toAcc kitty_id).2.owned_kitties_index x =
          s.owned_kitties_index x)) := by
  have h0 : s.owned_kitties_count sender ≠ 0 := Nat.pos_iff_ne_zero.mp hpos
  unfold transfer_kitty
  rw [howner]
  dsimp only
  rw [if_pos rfl, if_neg h0, if_neg hmax]
  by_cases hswap :
      s.owned_kitties_index kitty_id ≠ s.owned_kitties_count sender - 1
  · rw [if_pos hswap]
    have hlast :
        s.owned_kitties (sender, s.owned_kitties_count sender - 1) ≠ kitty_id := by
      intro hcontra
      have hidx := hslots (s.owned_kitties_count sender - 1)
        (Nat.sub_lt hpos Nat.one_pos)
      rw [hcontra] at hidx
      exact hswap hidx
    refine ⟨rfl, ?_, ?_, fun hk => absurd hk hswap, fun _ => ⟨?_, ?_, ?_, ?_⟩⟩
    · simp [Ne.symm hto]
    · simp [Prod.mk.injEq, Ne.symm hto]
    · simp [Prod.mk.injEq, Ne.symm hto, hswap]
    · simp [Prod.mk.injEq, hlast]
    · intro j hj1 hj2
      simp [Prod.mk.injEq, Ne.symm hto, hj1, hj2]
    · intro x hx1 hx2
      simp [hx1, hx2]
  · rw [if_neg hswap]
    push_neg at hswap
    refine ⟨rfl, ?_, ?_, fun _ => ⟨?_, ?_⟩, fun hk => absurd hswap hk⟩
    · simp [Ne.symm hto]
    · simp [Prod.mk.injEq, Ne.symm hto]
    · intro j hj
      simp [Prod.mk.injEq, Ne.symm hto, hj]
    · intro x hx
      simp [hx]

/-- Witness for C7: in `traceS2` account `0` owns kitties `0` (slot `0`)
and `1` (slot `1`); transferring kitty `0` to account `1` exercises the
non-last (swap) case: the former last kitty `1` moves into slot `0` and
its `slot_of` entry becomes `0`. -/
theorem transfer_swap_with_last_removal_witness :
    (1 : AccountId) ≠ 0 ∧
    traceS2.kitty_owner 0 = some 0 ∧
    0 < traceS2.owned_kitties_count 0 ∧
    traceS2.owned_kitties_count 0 ≠ 100 ∧
    traceS2.owned_kitties_index 0 ≠ traceS2.owned_kitties_count 0 - 1 ∧
    (transfer_kitty 100 traceS2 0 1 0).1 = none ∧
    (transfer_kitty 100 traceS2 0 1 0).2.owned_kitties_count 0 =
      traceS2.owned_kitties_count 0 - 1 ∧
    (transfer_kitty 100 traceS2 0 1 0).2.owned_kitties
      (0, traceS2.owned_kitties_index 0) =
      traceS2.owned_kitties (0, traceS2.owned_kitties_count 0 - 1) ∧
    (transfer_kitty 100 traceS2 0 1 0).2.owned_kitties_index
      (traceS2.owned_kitties (0, traceS2.owned_kitties_count 0 - 1)) =
      traceS2.owned_kitties_index 0 := by
  have h := transfer_swap_with_last_removal 100 traceS2 0 1 0 (by decide)
    (by decide) (by decide) (by decide)
    (by decide) (by decide) (by decide)
  have hs := h.2.2.2.2 (by decide)
  exact ⟨by decide, by decide, by decide, by decide, by decide,
    h.1, h.2.1, hs.1, hs.2.1⟩

end Kitties
